import Mathlib

/-!
Shallow embedding of the Sparkify data-lake ETL (src/etl.py) and proofs about
its specification.

Modelling conventions:
* A dataframe is a `List Row`; a `Row` is an association list from column name
  to `Value` (schema-on-read over JSON records: a field absent from a record
  reads back as `Value.null`, matching the engine's union-schema inference).
* JSON integers are `Value.int`, JSON decimal numbers (song durations, event
  lengths) are `Value.num` over `Rat` — exact values, since the engine joins on
  exact equality of the stored numbers.
* The two Python udfs at src/etl.py:90 and src/etl.py:94 are modelled over
  nonnegative epoch-millisecond timestamps (the `ts` field of the logs).
  Python float division `int(x) / 1000.0` is exact to the millisecond for every
  timestamp of magnitude below 2^43 (a double has a 53-bit mantissa), so the
  model works at millisecond precision.  `datetime.fromtimestamp` is taken at
  UTC, the timezone the spec pins for determinism.  The rendered
  `str(datetime)` is injective in the calendar fields, so the model carries the
  parsed fields (`PyDatetime`) instead of the string; the engine's
  `hour`/`month`/... functions, which parse that string back, become field
  accessors.
-/

/-- Calendar fields of a Python `datetime` value, as produced by
`datetime.fromtimestamp` and rendered by `str`: `str` shows microseconds
whenever they are nonzero, so distinct field tuples render to distinct
strings and the fields faithfully represent the rendered value. -/
structure PyDatetime where
  year : Nat
  month : Nat
  day : Nat
  hour : Nat
  minute : Nat
  second : Nat
  microsecond : Nat
deriving DecidableEq, Repr

/-- Civil (proleptic Gregorian) date of a day count since 1970-01-01,
following the standard era-based conversion used by calendar libraries.
Returns (year, month, day). -/
def civilFromDays (z : Nat) : Nat × Nat × Nat :=
  let d := z + 719468
  let era := d / 146097
  let doe := d % 146097
  let yoe := (doe - doe / 1460 + doe / 36524 - doe / 146096) / 365
  let y := yoe + era * 400
  let doy := doe - (365 * yoe + yoe / 4 - yoe / 100)
  let mp := (5 * doy + 2) / 153
  let day := doy - (153 * mp + 2) / 5 + 1
  let m := if mp < 10 then mp + 3 else mp - 9
  (if m ≤ 2 then y + 1 else y, m, day)

/-- Day count since 1970-01-01 of a civil (proleptic Gregorian) date; the
inverse direction of `civilFromDays`, used to reconstruct an epoch instant
from rendered calendar fields. -/
def daysFromCivil (y m d : Nat) : Nat :=
  let yy := if m ≤ 2 then y - 1 else y
  let era := yy / 400
  let yoe := yy % 400
  let mp := if m ≤ 2 then m + 9 else m - 3
  let doy := (153 * mp + 2) / 5 + d - 1
  let doe := yoe * 365 + yoe / 4 - yoe / 100 + doy
  era * 146097 + doe - 719468

/-- Model of `datetime.fromtimestamp(int(x) / 1000.0)` (src/etl.py:94) at UTC
on an epoch-millisecond timestamp `t`: the float division keeps the
millisecond fraction, so the resulting datetime carries
`microsecond = (t mod 1000) * 1000` — sub-second precision is preserved,
not truncated. -/
def fromtimestampMs (t : Nat) : PyDatetime :=
  { year := (civilFromDays (t / 86400000)).1
  , month := (civilFromDays (t / 86400000)).2.1
  , day := (civilFromDays (t / 86400000)).2.2
  , hour := t % 86400000 / 3600000
  , minute := t % 86400000 % 3600000 / 60000
  , second := t % 86400000 % 60000 / 1000
  , microsecond := t % 86400000 % 1000 * 1000 }

/-- Epoch instant (in milliseconds) reconstructed from the calendar fields of
a rendered datetime — the round-trip direction used to state the temporal
claims. -/
def toEpochMs (d : PyDatetime) : Nat :=
  daysFromCivil d.year d.month d.day * 86400000 +
    (d.hour * 3600000 + d.minute * 60000 + d.second * 1000 + d.microsecond / 1000)

/-- Model of the udf `lambda x: str(int(int(x)/1000))` (src/etl.py:90): the
string of the epoch-second value truncated from milliseconds.  The float
division is exact at this magnitude, so `int(int(x)/1000) = x / 1000`
(floor division). -/
def get_timestamp (x : Nat) : String :=
  toString (x / 1000)

/-- Model of the udf `lambda x: str(datetime.fromtimestamp(int(x) / 1000.0))`
(src/etl.py:94); see `fromtimestampMs`. -/
def get_datetime (x : Nat) : PyDatetime :=
  fromtimestampMs x

/-- Zeller weekday of a civil date, ISO numbering (Monday = 1 .. Sunday = 7);
used only to model the engine's ISO `weekofyear` function. -/
def zellerWeekday (y m d : Nat) : Nat :=
  let yz := if m ≤ 2 then y - 1 else y
  let mz := if m ≤ 2 then m + 12 else m
  let k := yz % 100
  let j := yz / 100
  let h := (d + 13 * (mz + 1) / 5 + k + k / 4 + j / 4 + 5 * j) % 7
  (h + 5) % 7 + 1

/-- Gregorian leap-year test. -/
def isLeap (y : Nat) : Bool :=
  (y % 4 == 0 && y % 100 != 0) || y % 400 == 0

/-- Days before the first of month `m` in a non-leap/leap year. -/
def daysBeforeMonth (leap : Bool) (m : Nat) : Nat :=
  let base := [0, 0, 31, 59, 90, 120, 151, 181, 212, 243, 273, 304, 334].getD m 0
  if leap && 2 < m then base + 1 else base

/-- Ordinal day of the year (1-based) of a civil date. -/
def ordinalDay (y m d : Nat) : Nat :=
  daysBeforeMonth (isLeap y) m + d

/-- Number of ISO weeks in a year (52 or 53). -/
def isoWeeksInYear (y : Nat) : Nat :=
  if zellerWeekday y 1 1 = 4 || (isLeap y && zellerWeekday y 1 1 = 3) then 53 else 52

/-- ISO-8601 week-of-year of a civil date; models the engine's `weekofyear`
function applied to the rendered datetime column. -/
def isoWeekOfYear (y m d : Nat) : Nat :=
  let w := (ordinalDay y m d + 10 - zellerWeekday y m d) / 7
  if w = 0 then isoWeeksInYear (y - 1)
  else if w = 53 && isoWeeksInYear y = 52 then 1
  else w

/-- A cell value of a dataframe.  `null` is the engine's SQL null (also what a
record reads back for a field absent from its JSON source); `dt` carries the
calendar fields of the rendered datetime string (see module header). -/
inductive Value where
  | null
  | bool (b : Bool)
  | int (n : Int)
  | num (q : Rat)
  | str (s : String)
  | dt (d : PyDatetime)
deriving DecidableEq, Repr

/-- A dataframe row: an association list from column name to value. -/
abbrev Row := List (String × Value)

/-- Value of column `c` in a row; `null` when the column is absent
(schema-on-read over JSON: missing fields are null). -/
def Row.get : Row → String → Value
  | [], _ => .null
  | (c', v) :: r, c => if c' = c then v else Row.get r c

/-- Replace the binding of column `c` (or append it when absent); models the
engine's `withColumn` on a single row. -/
def Row.setCol : Row → String → Value → Row
  | [], c, v => [(c, v)]
  | (c', v') :: r, c, v => if c' = c then (c, v) :: r else (c', v') :: Row.setCol r c v

/-- The engine's `withColumn name udf` over a dataframe: every row gains a
`name` column computed from the row. -/
def withColumn (name : String) (f : Row → Value) (t : List Row) : List Row :=
  t.map (fun r => Row.setCol r name (f r))

/-- Projection `df[c1, ..., cn]` of a single row. -/
def selectCols (cols : List String) (r : Row) : Row :=
  cols.map (fun c => (c, Row.get r c))

/-- Worker for `dedupByKey`: keeps the first row for each key value not yet
seen. -/
def dedupByKeyAux {α β : Type} [DecidableEq β] (k : α → β) (seen : List β) : List α → List α
  | [] => []
  | a :: as =>
    if k a ∈ seen then dedupByKeyAux k seen as
    else a :: dedupByKeyAux k (k a :: seen) as

/-- The engine's `dropDuplicates([key])`: one surviving row per key value.
The engine leaves the survivor unspecified; the model keeps the first in row
order, a legitimate instance of that contract. -/
def dedupByKey {α β : Type} [DecidableEq β] (k : α → β) (l : List α) : List α :=
  dedupByKeyAux k [] l

/-- Epoch-millisecond timestamp of an event row (its `ts` field; log
timestamps are nonnegative integers). -/
def tsOf (r : Row) : Nat :=
  match Row.get r "ts" with
  | .int n => n.toNat
  | _ => 0

/-- The songs dimension table (src/etl.py:40-45): project five catalog
columns, then deduplicate on song_id. -/
def songs_table (df : List Row) : List Row :=
  dedupByKey (fun r => Row.get r "song_id")
    (df.map (selectCols ["song_id", "title", "artist_id", "year", "duration"]))

/-- The artists dimension table (src/etl.py:52-56): project five catalog
columns, then deduplicate on artist_id.  The source selects the raw field
names and performs no renaming. -/
def artists_table (df : List Row) : List Row :=
  dedupByKey (fun r => Row.get r "artist_id")
    (df.map (selectCols ["artist_id", "artist_name", "artist_location", "artist_latitude", "artist_longitude"]))

/-- The users dimension table (src/etl.py:83), built from the already
filtered event dataframe: project five event columns (raw field names, no
renaming), then deduplicate on userId. -/
def users_table (df : List Row) : List Row :=
  dedupByKey (fun r => Row.get r "userId")
    (df.map (selectCols ["userId", "firstName", "lastName", "gender", "level"]))

/-- The NextSong filter predicate `df['page'] == 'NextSong'`
(src/etl.py:80). -/
def isNextSong (r : Row) : Bool :=
  Row.get r "page" == Value.str "NextSong"

/-- The filtered event dataframe of src/etl.py:80. -/
def filteredEvents (logData : List Row) : List Row :=
  logData.filter isNextSong

/-- The engine's `hour` function on the datetime column. -/
def sparkHour : Value → Value
  | .dt d => .int d.hour
  | _ => .null

/-- The engine's `dayofmonth` function on the datetime column. -/
def sparkDayOfMonth : Value → Value
  | .dt d => .int d.day
  | _ => .null

/-- The engine's `weekofyear` function on the datetime column. -/
def sparkWeekOfYear : Value → Value
  | .dt d => .int (isoWeekOfYear d.year d.month d.day)
  | _ => .null

/-- The engine's `month` function on the datetime column. -/
def sparkMonth : Value → Value
  | .dt d => .int d.month
  | _ => .null

/-- The engine's `year` function on the datetime column. -/
def sparkYear : Value → Value
  | .dt d => .int d.year
  | _ => .null

/-- One row of the time table select (src/etl.py:98-104): start_time aliases
the datetime column, the calendar fields are derived from it. -/
def timeRowOf (r : Row) : Row :=
  [ ("start_time", Row.get r "datetime")
  , ("hour", sparkHour (Row.get r "datetime"))
  , ("day", sparkDayOfMonth (Row.get r "datetime"))
  , ("week", sparkWeekOfYear (Row.get r "datetime"))
  , ("month", sparkMonth (Row.get r "datetime"))
  , ("year", sparkYear (Row.get r "datetime")) ]

/-- The time dimension table (src/etl.py:98-105): per-row select, then
deduplicate on start_time. -/
def time_table (df : List Row) : List Row :=
  dedupByKey (fun r => Row.get r "start_time") (df.map timeRowOf)

/-- The udf value stored in the `timestamp` column (src/etl.py:91). -/
def timestampUdf (r : Row) : Value :=
  .str (get_timestamp (tsOf r))

/-- The udf value stored in the `datetime` column (src/etl.py:95). -/
def datetimeUdf (r : Row) : Value :=
  .dt (get_datetime (tsOf r))

/-- The event dataframe after the two withColumn steps of src/etl.py:91 and
src/etl.py:95: filter to NextSong, add `timestamp`, add `datetime`. -/
def logEventsWithCols (logData : List Row) : List Row :=
  withColumn "datetime" datetimeUdf (withColumn "timestamp" timestampUdf (filteredEvents logData))

/-- Variant of `logEventsWithCols` with the `timestamp` column-addition step
(src/etl.py:90-91) removed, for the refinement comparison. -/
def logEventsWithColsNoTimestampCol (logData : List Row) : List Row :=
  withColumn "datetime" datetimeUdf (filteredEvents logData)

/-- PySpark Column expressions, as far as the join condition of
src/etl.py:115-117 needs them: attribute references on the two dataframes,
`==` and `&`. -/
inductive Col where
  | attr (df : String) (name : String)
  | eqCol (a b : Col)
  | andCol (a b : Col)
deriving DecidableEq, Repr

/-- The error message raised by the Column truth-value protocol. -/
def columnBoolError : String :=
  "Cannot convert column into bool"

/-- Python truth-value test on a PySpark Column: always raises ValueError
(Column defines no boolean conversion precisely to catch misuse of `and`). -/
def colBool (_ : Col) : Except String Bool :=
  .error columnBoolError

/-- Python semantics of a chained comparison `a == b == c == ...` over
Columns: each link builds `a == b` and then takes its truth value to decide
whether to continue the chain, which raises on Columns as soon as the chain
has at least two links. -/
def chainedEq : Col → List Col → Except String Col
  | a, [] => .ok a
  | a, [b] => .ok (Col.eqCol a b)
  | a, b :: c :: rest => do
    let r := Col.eqCol a b
    let t ← colBool r
    if t then chainedEq b (c :: rest) else pure r

/-- The join condition of src/etl.py:115-117 exactly as Python parses it:
`&` binds tighter than `==`, so the unparenthesized source text
`song_df.title == df.song & song_df.artist_name == df.artist
& song_df.duration == df.length` is the chained comparison
`song_df.title == (df.song & song_df.artist_name)
== (df.artist & song_df.duration) == df.length`. -/
def songplaysJoinCond : Except String Col :=
  chainedEq (.attr "song_df" "title")
    [ .andCol (.attr "df" "song") (.attr "song_df" "artist_name")
    , .andCol (.attr "df" "artist") (.attr "song_df" "duration")
    , .attr "df" "length" ]

/-- Modelled from the spec: the join predicate as the spec states it must be
read — a single compound three-way logical AND
`(song_df.title == df.song) & (song_df.artist_name == df.artist)
& (song_df.duration == df.length)`. -/
def intendedJoinCond : Col :=
  .andCol
    (.andCol
      (.eqCol (.attr "song_df" "title") (.attr "df" "song"))
      (.eqCol (.attr "song_df" "artist_name") (.attr "df" "artist")))
    (.eqCol (.attr "song_df" "duration") (.attr "df" "length"))

/-- Evaluation of a Column expression on a pair of joined rows: `df`
attributes read the event row, `song_df` attributes the catalog row; `==`
yields a SQL boolean (null-propagating), `&` is boolean conjunction. -/
def evalCol (eventRow catalogRow : Row) : Col → Value
  | .attr df c => if df = "song_df" then Row.get catalogRow c else Row.get eventRow c
  | .eqCol a b =>
    match evalCol eventRow catalogRow a, evalCol eventRow catalogRow b with
    | .null, _ => .null
    | _, .null => .null
    | va, vb => .bool (va = vb)
  | .andCol a b =>
    match evalCol eventRow catalogRow a, evalCol eventRow catalogRow b with
    | .bool x, .bool y => .bool (x && y)
    | _, _ => .null

/-- Inner join of the event dataframe against the catalog dataframe on a
Column condition: a combined row is kept iff the condition evaluates to
true. -/
def joinInner (left right : List Row) (cond : Col) : List Row :=
  left.flatMap (fun l =>
    right.filterMap (fun r =>
      if evalCol l r cond = .bool true then some (l ++ r) else none))

/-- One row of the songplays select (src/etl.py:122-134), with the surrogate
key produced by `monotonically_increasing_id` modelled as the row index `i`
(the engine's contract for that function is pairwise-distinct ids, which the
index instantiates). -/
def songplayRow (i : Nat) (r : Row) : Row :=
  [ ("songplay_id", Value.int i)
  , ("start_time", Row.get r "datetime")
  , ("user_id", Row.get r "userId")
  , ("level", Row.get r "level")
  , ("song_id", Row.get r "song_id")
  , ("artist_id", Row.get r "artist_id")
  , ("session_id", Row.get r "sessionId")
  , ("location", Row.get r "location")
  , ("user_agent", Row.get r "userAgent")
  , ("year", sparkYear (Row.get r "datetime"))
  , ("month", sparkMonth (Row.get r "datetime")) ]

/-- The songplays select of src/etl.py:122-134 over the joined dataframe. -/
def songplays_select (joined : List Row) : List Row :=
  joined.enum.map (fun p => songplayRow p.1 p.2)

/-- A completed write of one output table: destination path, partition
columns, save mode and the written rows. -/
structure WriteEvent where
  path : String
  partitionColumns : List String
  mode : String
  rows : List Row
deriving DecidableEq, Repr

/-- Result of running one pipeline phase: the writes that completed, in
order, and the error that aborted the phase, if any. -/
structure RunResult where
  writes : List WriteEvent
  error : Option String
deriving DecidableEq, Repr

/-- The songplays write statement of src/etl.py:135: parquet at
`songplays.parquet`, partitioned by year and month, overwrite mode. -/
def songplaysWrite (output_data : String) (rows : List Row) : WriteEvent :=
  ⟨output_data ++ "songplays.parquet", ["year", "month"], "overwrite", rows⟩

/-- Model of `process_song_data` (src/etl.py:24-60): build and write the
songs table (partitioned by year, artist_id) and the artists table
(unpartitioned), both in overwrite mode. -/
def process_song_data (output_data : String) (songData : List Row) : RunResult :=
  ⟨[ ⟨output_data ++ "songs.parquet", ["year", "artist_id"], "overwrite", songs_table songData⟩
   , ⟨output_data ++ "artists.parquet", [], "overwrite", artists_table songData⟩ ], none⟩

/-- Model of `process_log_data` (src/etl.py:63-136): filter events to
NextSong, write users, add the timestamp and datetime columns, write time,
re-read and deduplicate the catalog, then build the join condition of
src/etl.py:115-117 — whose Python evaluation raises, aborting the phase
before any songplays write; the ok branch models what the rest of the
function would do with a successfully built condition. -/
def process_log_data (output_data : String) (logData songData : List Row) : RunResult :=
  let users := users_table (filteredEvents logData)
  let usersW : WriteEvent := ⟨output_data ++ "users.parquet", [], "overwrite", users⟩
  let df := logEventsWithCols logData
  let timeT := time_table df
  let timeW : WriteEvent := ⟨output_data ++ "time.parquet", ["year", "month"], "overwrite", timeT⟩
  let song_df := dedupByKey (fun r => Row.get r "song_id") songData
  match songplaysJoinCond with
  | .error e => ⟨[usersW, timeW], some e⟩
  | .ok cond =>
    let songplays := songplays_select (joinInner df song_df cond)
    ⟨[usersW, timeW, songplaysWrite output_data songplays], none⟩

/-- Variant of `process_log_data` with the `timestamp` column-addition step
(src/etl.py:90-91) removed, for the refinement comparison of the implicit
claim that the column is dead. -/
def process_log_data_no_timestamp (output_data : String) (logData songData : List Row) : RunResult :=
  let users := users_table (filteredEvents logData)
  let usersW : WriteEvent := ⟨output_data ++ "users.parquet", [], "overwrite", users⟩
  let df := logEventsWithColsNoTimestampCol logData
  let timeT := time_table df
  let timeW : WriteEvent := ⟨output_data ++ "time.parquet", ["year", "month"], "overwrite", timeT⟩
  let song_df := dedupByKey (fun r => Row.get r "song_id") songData
  match songplaysJoinCond with
  | .error e => ⟨[usersW, timeW], some e⟩
  | .ok cond =>
    let songplays := songplays_select (joinInner df song_df cond)
    ⟨[usersW, timeW, songplaysWrite output_data songplays], none⟩

/-- Model of `main` (src/etl.py:139-145): the song phase runs first, then the
log phase; an error in either phase aborts the run, keeping the writes
completed so far. -/
def etl_main (songData logData : List Row) : RunResult :=
  let s := process_song_data "" songData
  match s.error with
  | some e => ⟨s.writes, some e⟩
  | none =>
    let l := process_log_data "" logData songData
    ⟨s.writes ++ l.writes, l.error⟩

/-- A destination store: association list from path to the rows last written
there. -/
abbrev FS := List (String × List Row)

/-- Modelled from the spec: the engine's parquet write in overwrite mode
(the write calls at src/etl.py:48, 59, 86, 108, 135 all pass mode
`overwrite`; the replace-at-path semantics itself lives in the engine, which
the spec describes as removing or replacing any existing data at the path). -/
def fsWrite (fs : FS) (path : String) (rows : List Row) : FS :=
  (path, rows) :: fs.filter (fun p => ¬ p.1 = path)

/-- Read back the rows stored at a path. -/
def fsRead (fs : FS) (path : String) : Option (List Row) :=
  (fs.find? (fun p => p.1 == path)).map (fun p => p.2)

/-- Scenario catalog: one song (id S1, title Test, artist A1/Artist1,
duration 200.0, year 2000). -/
def catalogA : List Row :=
  [ [ ("song_id", Value.str "S1")
    , ("title", Value.str "Test")
    , ("artist_id", Value.str "A1")
    , ("artist_name", Value.str "Artist1")
    , ("artist_location", Value.str "Loc")
    , ("artist_latitude", Value.num 1)
    , ("artist_longitude", Value.num 2)
    , ("year", Value.int 2000)
    , ("duration", Value.num 200) ] ]

/-- Scenario A event log: one NextSong event matching the catalog song on
title, artist and length. -/
def eventsA : List Row :=
  [ [ ("ts", Value.int 1541440000000)
    , ("userId", Value.str "U1")
    , ("firstName", Value.str "First")
    , ("lastName", Value.str "Last")
    , ("gender", Value.str "F")
    , ("level", Value.str "free")
    , ("page", Value.str "NextSong")
    , ("song", Value.str "Test")
    , ("artist", Value.str "Artist1")
    , ("length", Value.num 200)
    , ("sessionId", Value.int 1)
    , ("location", Value.str "City")
    , ("userAgent", Value.str "UA") ] ]

/-- Scenario B event log: as scenario A but with length 201.0, mismatching
the catalog duration. -/
def eventsB : List Row :=
  [ [ ("ts", Value.int 1541440000000)
    , ("userId", Value.str "U1")
    , ("firstName", Value.str "First")
    , ("lastName", Value.str "Last")
    , ("gender", Value.str "F")
    , ("level", Value.str "free")
    , ("page", Value.str "NextSong")
    , ("song", Value.str "Test")
    , ("artist", Value.str "Artist1")
    , ("length", Value.num 201)
    , ("sessionId", Value.int 1)
    , ("location", Value.str "City")
    , ("userAgent", Value.str "UA") ] ]

theorem get_setCol_eq (r : Row) (c : String) (v : Value) :
    Row.get (Row.setCol r c v) c = v := by
  induction r with
  | nil => simp [Row.setCol, Row.get]
  | cons p r ih =>
    obtain ⟨a, w⟩ := p
    by_cases h : a = c
    · simp [Row.setCol, Row.get, h]
    · simp [Row.setCol, Row.get, h, ih]

theorem get_setCol_ne (r : Row) (c c' : String) (v : Value) (h : c' ≠ c) :
    Row.get (Row.setCol r c v) c' = Row.get r c' := by
  induction r with
  | nil => simp [Row.setCol, Row.get, Ne.symm h]
  | cons p r ih =>
    obtain ⟨a, w⟩ := p
    by_cases ha : a = c
    · subst ha
      simp [Row.setCol, Row.get, Ne.symm h]
    · by_cases ha' : a = c'
      · simp [Row.setCol, Row.get, ha, ha', h, Ne.symm h]
      · simp [Row.setCol, Row.get, ha, ha', ih]

theorem dedupByKeyAux_sublist {α β : Type} [DecidableEq β] (k : α → β) (seen : List β)
    (l : List α) : List.Sublist (dedupByKeyAux k seen l) l := by
  induction l generalizing seen with
  | nil => simp [dedupByKeyAux]
  | cons a as ih =>
    rw [dedupByKeyAux]
    split
    · exact (ih seen).cons a
    · exact (ih (k a :: seen)).cons₂ a

theorem dedupByKeyAux_key_nodup {α β : Type} [DecidableEq β] (k : α → β) (seen : List β)
    (l : List α) :
    ((dedupByKeyAux k seen l).map k).Nodup ∧ ∀ a ∈ dedupByKeyAux k seen l, k a ∉ seen := by
  induction l generalizing seen with
  | nil => simp [dedupByKeyAux]
  | cons a as ih =>
    rw [dedupByKeyAux]
    split
    · case isTrue h => exact ⟨(ih seen).1, (ih seen).2⟩
    · case isFalse h =>
      refine ⟨?_, ?_⟩
      · simp only [List.map_cons, List.nodup_cons]
        refine ⟨?_, (ih (k a :: seen)).1⟩
        intro hmem
        obtain ⟨x, hx, hkx⟩ := List.mem_map.mp hmem
        have hnot := (ih (k a :: seen)).2 x hx
        exact hnot (by simp [hkx])
      · intro x hx
        rcases List.mem_cons.mp hx with rfl | hx'
        · exact h
        · intro hseen
          exact (ih (k a :: seen)).2 x hx' (List.mem_cons_of_mem _ hseen)

theorem dedupByKey_sublist {α β : Type} [DecidableEq β] (k : α → β) (l : List α) :
    List.Sublist (dedupByKey k l) l :=
  dedupByKeyAux_sublist k [] l

theorem dedupByKey_key_nodup {α β : Type} [DecidableEq β] (k : α → β) (l : List α) :
    ((dedupByKey k l).map k).Nodup :=
  (dedupByKeyAux_key_nodup k [] l).1

theorem keys_selectCols (cols : List String) (r : Row) :
    (selectCols cols r).map Prod.fst = cols := by
  induction cols with
  | nil => rfl
  | cons c cs ih =>
    simp only [selectCols, List.map_cons] at ih ⊢
    rw [ih]

theorem extract_invariants (cols : List String) (key : String) (df : List Row)
    (h : ∀ r : Row, Row.get (selectCols cols r) key = Row.get r key) :
    ((dedupByKey (fun r => Row.get r key) (df.map (selectCols cols))).map
        (fun r => Row.get r key)).Nodup
    ∧ (dedupByKey (fun r => Row.get r key) (df.map (selectCols cols))).length ≤ df.length
    ∧ ∀ v ∈ (dedupByKey (fun r => Row.get r key) (df.map (selectCols cols))).map
        (fun r => Row.get r key), v ∈ df.map (fun r => Row.get r key) := by
  refine ⟨dedupByKey_key_nodup _ _, ?_, ?_⟩
  · calc (dedupByKey (fun r => Row.get r key) (df.map (selectCols cols))).length
        ≤ (df.map (selectCols cols)).length := (dedupByKey_sublist _ _).length_le
      _ = df.length := List.length_map _ _
  · intro v hv
    have hsub := ((dedupByKey_sublist (fun r => Row.get r key)
      (df.map (selectCols cols))).map (fun r => Row.get r key)).subset hv
    rw [List.map_map] at hsub
    have hfun : ((fun r => Row.get r key) ∘ selectCols cols) = fun r : Row => Row.get r key :=
      funext fun r => h r
    rwa [hfun] at hsub

theorem songplaysJoinCond_eq : songplaysJoinCond = Except.error columnBoolError := rfl

theorem filteredEvents_idem (l : List Row) :
    filteredEvents (filteredEvents l) = filteredEvents l := by
  simp [filteredEvents, List.filter_filter]

theorem keys_timeRowOf (r : Row) :
    (timeRowOf r).map Prod.fst = ["start_time", "hour", "day", "week", "month", "year"] := rfl

theorem keys_of_mem_dedup_select (cols : List String) (key : String) (df : List Row) (r : Row)
    (h : r ∈ dedupByKey (fun r => Row.get r key) (df.map (selectCols cols))) :
    r.map Prod.fst = cols := by
  have hmem := (dedupByKey_sublist (fun r => Row.get r key) (df.map (selectCols cols))).subset h
  obtain ⟨x, hx, rfl⟩ := List.mem_map.mp hmem
  exact keys_selectCols cols x

theorem keys_of_mem_time_table (df : List Row) (r : Row) (h : r ∈ time_table df) :
    r.map Prod.fst = ["start_time", "hour", "day", "week", "month", "year"] := by
  have hmem := (dedupByKey_sublist (fun r => Row.get r "start_time") (df.map timeRowOf)).subset h
  obtain ⟨x, hx, rfl⟩ := List.mem_map.mp hmem
  exact keys_timeRowOf x

theorem datetimeUdf_setCol_timestamp (r : Row) (v : Value) :
    datetimeUdf (Row.setCol r "timestamp" v) = datetimeUdf r := by
  simp only [datetimeUdf, tsOf]
  rw [get_setCol_ne]
  decide

theorem timeRowOf_setCol (y : Row) (v : Value) :
    timeRowOf (Row.setCol y "datetime" v) =
      [ ("start_time", v), ("hour", sparkHour v), ("day", sparkDayOfMonth v)
      , ("week", sparkWeekOfYear v), ("month", sparkMonth v), ("year", sparkYear v) ] := by
  simp [timeRowOf, get_setCol_eq]

theorem time_table_no_timestamp (l : List Row) :
    time_table (logEventsWithColsNoTimestampCol l) = time_table (logEventsWithCols l) := by
  unfold time_table logEventsWithCols logEventsWithColsNoTimestampCol withColumn
  simp only [List.map_map]
  have hfun : (timeRowOf ∘ fun r : Row => r.setCol "datetime" (datetimeUdf r))
      = (timeRowOf ∘ (fun r : Row => r.setCol "datetime" (datetimeUdf r)) ∘
          fun r : Row => r.setCol "timestamp" (timestampUdf r)) := by
    funext r
    simp only [Function.comp_apply]
    rw [datetimeUdf_setCol_timestamp, timeRowOf_setCol, timeRowOf_setCol]
  rw [hfun]

/-- C2 (counterexample): the temporal conversion does NOT truncate to whole
seconds — at the concrete epoch-millisecond timestamp 1541440000796, the
epoch instant reconstructed from the start_time calendar fields is not
floor(t/1000) whole seconds (its microsecond field is nonzero), refuting
the claimed round-trip to floor(t/1000). -/
theorem C2_counterexample :
    toEpochMs (fromtimestampMs 1541440000796) ≠ 1541440000796 / 1000 * 1000
    ∧ (fromtimestampMs 1541440000796).microsecond ≠ 0 := by
  constructor
  · decide
  · decide

/-- C2 (amended): for every epoch-millisecond timestamp t, the datetime
produced by the conversion preserves sub-second precision: its microsecond
field is (t mod 1000)·1000, its second field is floor(t/1000) mod 60, and
the epoch instant reconstructed from its calendar fields agrees with t
modulo a day (86400000 ms) — in particular modulo 1000 ms — so
reconstructing epoch seconds yields floor(t/1000) only when t is a whole
multiple of 1000. -/
theorem C2_start_time_millisecond_precision (t : Nat) :
    toEpochMs (fromtimestampMs t) % 86400000 = t % 86400000
    ∧ (fromtimestampMs t).microsecond = t % 1000 * 1000
    ∧ (fromtimestampMs t).second = t / 1000 % 60
    ∧ toEpochMs (fromtimestampMs t) % 1000 = t % 1000 := by
  refine ⟨?_, ?_, ?_, ?_⟩
  · simp only [toEpochMs, fromtimestampMs]
    omega
  · simp only [fromtimestampMs]
    omega
  · simp only [fromtimestampMs]
    omega
  · simp only [toEpochMs, fromtimestampMs]
    omega

/-- C3: each dimension extraction (songs deduplicated on song_id, artists on
artist_id, users on userId) yields a table with no duplicate key values, at
most as many rows as its input, and only key values present in the input. -/
theorem C3_dimension_extractor_invariants (df : List Row) :
    (((songs_table df).map (fun r => Row.get r "song_id")).Nodup
      ∧ (songs_table df).length ≤ df.length
      ∧ ∀ v ∈ (songs_table df).map (fun r => Row.get r "song_id"),
          v ∈ df.map (fun r => Row.get r "song_id"))
    ∧ (((artists_table df).map (fun r => Row.get r "artist_id")).Nodup
      ∧ (artists_table df).length ≤ df.length
      ∧ ∀ v ∈ (artists_table df).map (fun r => Row.get r "artist_id"),
          v ∈ df.map (fun r => Row.get r "artist_id"))
    ∧ (((users_table df).map (fun r => Row.get r "userId")).Nodup
      ∧ (users_table df).length ≤ df.length
      ∧ ∀ v ∈ (users_table df).map (fun r => Row.get r "userId"),
          v ∈ df.map (fun r => Row.get r "userId")) :=
  ⟨extract_invariants _ "song_id" df (fun _ => rfl),
   extract_invariants _ "artist_id" df (fun _ => rfl),
   extract_invariants _ "userId" df (fun _ => rfl)⟩

/-- C3 (witness): the invariants evaluated on the concrete scenario
catalog. -/
theorem C3_dimension_extractor_invariants_witness :
    (((songs_table catalogA).map (fun r => Row.get r "song_id")).Nodup
      ∧ (songs_table catalogA).length ≤ catalogA.length
      ∧ ∀ v ∈ (songs_table catalogA).map (fun r => Row.get r "song_id"),
          v ∈ catalogA.map (fun r => Row.get r "song_id"))
    ∧ (((artists_table catalogA).map (fun r => Row.get r "artist_id")).Nodup
      ∧ (artists_table catalogA).length ≤ catalogA.length
      ∧ ∀ v ∈ (artists_table catalogA).map (fun r => Row.get r "artist_id"),
          v ∈ catalogA.map (fun r => Row.get r "artist_id"))
    ∧ (((users_table catalogA).map (fun r => Row.get r "userId")).Nodup
      ∧ (users_table catalogA).length ≤ catalogA.length
      ∧ ∀ v ∈ (users_table catalogA).map (fun r => Row.get r "userId"),
          v ∈ catalogA.map (fun r => Row.get r "userId")) :=
  C3_dimension_extractor_invariants catalogA

/-- C4: events whose page is not NextSong contribute nothing to the log
phase — running the phase on the input with those events removed produces
the identical result (same users and time writes, same outcome for the
songplays step). -/
theorem C4_non_nextsong_excluded (out : String) (logData songData : List Row) :
    process_log_data out (filteredEvents logData) songData =
      process_log_data out logData songData := by
  simp only [process_log_data, logEventsWithCols, filteredEvents_idem]

/-- C5: the songplays select assigns pairwise distinct songplay_id surrogate
keys, for every joined input dataframe. -/
theorem C5_songplay_ids_distinct (joined : List Row) :
    ((songplays_select joined).map (fun r => Row.get r "songplay_id")).Nodup := by
  unfold songplays_select
  rw [List.map_map]
  have h1 : ((fun r => Row.get r "songplay_id") ∘ fun p : Nat × Row => songplayRow p.1 p.2)
      = (fun i : Nat => Value.int i) ∘ Prod.fst :=
    funext fun p => rfl
  rw [h1, ← List.map_map, List.enum_map_fst]
  refine List.Nodup.map ?_ (List.nodup_range _)
  intro a b hab
  simpa using hab

/-- C1 (code bug): on the scenario-B input (one catalog song with title Test,
artist Artist1, duration 200.0, and one NextSong event matching on title and
artist but with length 201.0) the log phase does not produce a songplays
table with zero rows — the unparenthesized join condition of
src/etl.py:115-117 is a Python chained comparison whose evaluation takes the
truth value of a Column and raises, aborting the phase after the users and
time writes; under the compound three-way AND the spec intends, the inner
join of the same data is indeed empty. -/
theorem C1_join_condition_raises :
    songplaysJoinCond = Except.error columnBoolError
    ∧ (process_log_data "" eventsB catalogA).error = some columnBoolError
    ∧ (process_log_data "" eventsB catalogA).writes.map WriteEvent.path
        = ["users.parquet", "time.parquet"]
    ∧ joinInner (logEventsWithCols eventsB)
        (dedupByKey (fun r => Row.get r "song_id") catalogA) intendedJoinCond = [] := by
  refine ⟨rfl, ?_, ?_, ?_⟩
  · decide
  · decide
  · decide

/-- C6 (code bug): the catalog table used for the fact correlation is a
second, independent deduplicated load of the catalog source, distinct from
the songs dimension output; but no songplays table is ever persisted — the
run aborts at the join with the Column truth-value error, so the write trace
ends at the time table. -/
theorem C6_catalog_reload_and_no_songplays_persisted :
    (etl_main catalogA eventsA).writes.map WriteEvent.path
        = ["songs.parquet", "artists.parquet", "users.parquet", "time.parquet"]
    ∧ (etl_main catalogA eventsA).error = some columnBoolError
    ∧ dedupByKey (fun r => Row.get r "song_id") catalogA ≠ songs_table catalogA := by
  refine ⟨?_, ?_, ?_⟩
  · decide
  · decide
  · decide

/-- C7 (code bug): in the run's write trace, songs is partitioned by
(year, artist_id), time by (year, month), artists and users are
unpartitioned — but no songplays output exists, because the run aborts at
the join; the unreached songplays write statement itself is configured with
partition columns (year, month). -/
theorem C7_partitioning (rows : List Row) :
    (etl_main catalogA eventsA).writes.map (fun w => (w.path, w.partitionColumns))
        = [ ("songs.parquet", ["year", "artist_id"]), ("artists.parquet", [])
          , ("users.parquet", []), ("time.parquet", ["year", "month"]) ]
    ∧ (songplaysWrite "" rows).partitionColumns = ["year", "month"]
    ∧ "songplays.parquet" ∉ (etl_main catalogA eventsA).writes.map WriteEvent.path
    ∧ (etl_main catalogA eventsA).error.isSome = true := by
  refine ⟨by decide, rfl, by decide, by decide⟩

/-- C8 (counterexample): on the concrete scenario input, the artists table's
column names are not (artist_id, name, location, latitude, longitude) and
the users table's column names are not (user_id, first_name, last_name,
gender, level) — the source selects the raw field names and never renames
them. -/
theorem C8_counterexample :
    (artists_table catalogA).map (fun r => r.map Prod.fst)
        ≠ [["artist_id", "name", "location", "latitude", "longitude"]]
    ∧ (users_table (filteredEvents eventsA)).map (fun r => r.map Prod.fst)
        ≠ [["user_id", "first_name", "last_name", "gender", "level"]] := by
  constructor
  · decide
  · decide

/-- C8 (amended): for every input, each artists row has exactly the columns
(artist_id, artist_name, artist_location, artist_latitude, artist_longitude)
and each users row exactly (userId, firstName, lastName, gender, level) —
the raw source field names, with no renaming to the data model's declared
names. -/
theorem C8_output_column_names (catalog events : List Row) :
    (∀ r ∈ artists_table catalog, r.map Prod.fst
        = ["artist_id", "artist_name", "artist_location", "artist_latitude", "artist_longitude"])
    ∧ ∀ r ∈ users_table events, r.map Prod.fst
        = ["userId", "firstName", "lastName", "gender", "level"] := by
  constructor
  · intro r h
    unfold artists_table at h
    exact keys_of_mem_dedup_select _ "artist_id" catalog r h
  · intro r h
    unfold users_table at h
    exact keys_of_mem_dedup_select _ "userId" events r h

/-- C8 (witness): the amended column-name property evaluated on the concrete
scenario inputs. -/
theorem C8_output_column_names_witness :
    (∀ r ∈ artists_table catalogA, r.map Prod.fst
        = ["artist_id", "artist_name", "artist_location", "artist_latitude", "artist_longitude"])
    ∧ ∀ r ∈ users_table (filteredEvents eventsA), r.map Prod.fst
        = ["userId", "firstName", "lastName", "gender", "level"] :=
  C8_output_column_names catalogA (filteredEvents eventsA)

/-- C9: writing twice to the same path in overwrite mode leaves exactly the
second write's rows readable (no stale entry for that path survives), and
every write the pipeline performs uses overwrite mode. -/
theorem C9_overwrite_semantics (fs : FS) (path : String) (r1 r2 : List Row)
    (songData logData : List Row) (w : WriteEvent)
    (hw : w ∈ (etl_main songData logData).writes) :
    fsRead (fsWrite (fsWrite fs path r1) path r2) path = some r2
    ∧ (∀ e ∈ fsWrite (fsWrite fs path r1) path r2, e.1 = path → e.2 = r2)
    ∧ w.mode = "overwrite" := by
  refine ⟨?_, ?_, ?_⟩
  · simp [fsWrite, fsRead]
  · intro e he hepath
    rcases List.mem_cons.mp he with rfl | he'
    · rfl
    · have := (List.mem_filter.mp he').2
      simp [hepath] at this
  · simp only [etl_main, process_song_data, process_log_data, songplaysJoinCond_eq] at hw
    simp only [List.mem_append, List.mem_cons, List.not_mem_nil, or_false] at hw
    rcases hw with (rfl | rfl) | (rfl | rfl) <;> rfl

/-- C9 (witness): the overwrite round-trip and the overwrite mode of a
concrete pipeline write, at concrete inputs. -/
theorem C9_overwrite_semantics_witness :
    fsRead (fsWrite (fsWrite [] "p" [[("a", Value.int 1)]]) "p" []) "p" = some []
    ∧ (∀ e ∈ fsWrite (fsWrite [] "p" [[("a", Value.int 1)]]) "p" [], e.1 = "p" → e.2 = [])
    ∧ WriteEvent.mode ⟨"songs.parquet", ["year", "artist_id"], "overwrite", []⟩ = "overwrite" :=
  C9_overwrite_semantics [] "p" [[("a", Value.int 1)]] [] [] []
    ⟨"songs.parquet", ["year", "artist_id"], "overwrite", []⟩ (by decide)

/-- C10: the intermediate timestamp column is dead — the log phase with the
column-addition step removed produces the identical result, and no column
named timestamp appears in any row the phase writes. -/
theorem C10_timestamp_column_dead (out : String) (logData songData : List Row) :
    process_log_data_no_timestamp out logData songData = process_log_data out logData songData
    ∧ ∀ w ∈ (process_log_data out logData songData).writes,
        ∀ r ∈ w.rows, "timestamp" ∉ r.map Prod.fst := by
  constructor
  · simp only [process_log_data, process_log_data_no_timestamp, songplaysJoinCond_eq]
    rw [time_table_no_timestamp]
  · intro w hw r hr
    simp only [process_log_data, songplaysJoinCond_eq] at hw
    simp only [List.mem_cons, List.not_mem_nil, or_false] at hw
    rcases hw with rfl | rfl
    · simp only at hr
      unfold users_table at hr
      rw [keys_of_mem_dedup_select _ "userId" _ r hr]
      decide
    · simp only at hr
      rw [keys_of_mem_time_table _ r hr]
      decide

/-- C10 (witness): the refinement equality and the dead-column property at
concrete inputs. -/
theorem C10_timestamp_column_dead_witness :
    process_log_data_no_timestamp "" eventsA catalogA = process_log_data "" eventsA catalogA
    ∧ ∀ w ∈ (process_log_data "" eventsA catalogA).writes,
        ∀ r ∈ w.rows, "timestamp" ∉ r.map Prod.fst :=
  C10_timestamp_column_dead "" eventsA catalogA

/-- C2 (witness): the millisecond-precision properties evaluated at the
concrete timestamp 1541440000796. -/
theorem C2_start_time_millisecond_precision_witness :
    toEpochMs (fromtimestampMs 1541440000796) % 86400000 = 1541440000796 % 86400000
    ∧ (fromtimestampMs 1541440000796).microsecond = 1541440000796 % 1000 * 1000
    ∧ (fromtimestampMs 1541440000796).second = 1541440000796 / 1000 % 60
    ∧ toEpochMs (fromtimestampMs 1541440000796) % 1000 = 1541440000796 % 1000 :=
  C2_start_time_millisecond_precision 1541440000796

/-- C4 (witness): the exclusion property evaluated on the concrete scenario
inputs. -/
theorem C4_non_nextsong_excluded_witness :
    process_log_data "" (filteredEvents eventsA) catalogA =
      process_log_data "" eventsA catalogA :=
  C4_non_nextsong_excluded "" eventsA catalogA

/-- C5 (witness): distinct surrogate keys on a concrete two-row joined
dataframe. -/
theorem C5_songplay_ids_distinct_witness :
    ((songplays_select [[("datetime", Value.null)], []]).map
        (fun r => Row.get r "songplay_id")).Nodup :=
  C5_songplay_ids_distinct [[("datetime", Value.null)], []]

/-- C7 (witness): the partitioning facts evaluated with an empty songplays
row list. -/
theorem C7_partitioning_witness :
    (etl_main catalogA eventsA).writes.map (fun w => (w.path, w.partitionColumns))
        = [ ("songs.parquet", ["year", "artist_id"]), ("artists.parquet", [])
          , ("users.parquet", []), ("time.parquet", ["year", "month"]) ]
    ∧ (songplaysWrite "" []).partitionColumns = ["year", "month"]
    ∧ "songplays.parquet" ∉ (etl_main catalogA eventsA).writes.map WriteEvent.path
    ∧ (etl_main catalogA eventsA).error.isSome = true :=
  C7_partitioning []
